import Mathlib

/-!
Shallow embedding of the Invoice QC service
(src/backend/invoice_qc/models.py and src/backend/invoice_qc/validator.py).

Modelling conventions:
- Python floats are modelled as exact rationals (`ℚ`); decimal literals of the
  source such as 0.01 and 0.005 are the exact rationals 1/100 and 5/1000.
- Calendar dates are modelled as day ordinals (`Int`); subtraction of two
  dates gives the signed number of days, as `(d1 - d2).days` does in Python.
  `date.today()` and `datetime.utcnow()` are passed in as explicit parameters
  `today` and `now`, since the engine reads the clock.
- The pydantic `Invoice` model gives every field a static type, so the
  dynamic `getattr`/`isinstance` dispatch in `_check_required_fields` and
  `_check_dates` resolves per field: required fields are never `None`,
  `invoice_date`/`due_date` are always `date` instances, and the
  string-typed fields (including the `str`-subclass `Currency` enum value)
  are the only ones subject to the blank-string check.
- The mutable `seen_invoices` set of the engine is threaded explicitly as a
  list of keys with set semantics (membership test, insert-if-absent).
-/

namespace InvoiceQC

/-- models.py `Currency(str, Enum)`: the four supported currency codes. -/
inductive Currency where
  | EUR
  | USD
  | GBP
  | INR
deriving DecidableEq, Repr

/-- The `.value` of a `Currency` member (it is also its `str` content,
since `Currency` subclasses `str`). -/
def Currency.value : Currency → String
  | .EUR => "EUR"
  | .USD => "USD"
  | .GBP => "GBP"
  | .INR => "INR"

/-- models.py `LineItem`. -/
structure LineItem where
  description : String
  quantity : ℚ
  unit_price : ℚ
  line_total : ℚ
  tax_rate : Option ℚ := none
deriving DecidableEq, Repr

/-- models.py `Invoice`: every field of the pydantic model, with Python
`Optional` as `Option`. Dates are day ordinals, floats are rationals. -/
structure Invoice where
  invoice_number : String
  external_reference : Option String := none
  seller_name : String
  seller_address : Option String := none
  seller_tax_id : Option String := none
  buyer_name : String
  buyer_address : Option String := none
  buyer_tax_id : Option String := none
  invoice_date : Int
  due_date : Option Int := none
  currency : Currency := .EUR
  net_total : ℚ
  tax_amount : ℚ
  gross_total : ℚ
  line_items : List LineItem := []
  payment_terms : Option String := none
  notes : Option String := none
  source_file : Option String := none
  extracted_at : Option Int := none
deriving DecidableEq, Repr

/-- models.py `Invoice.non_negative_amounts` field validator: rejects a
negative amount with `ValueError("Amounts cannot be negative")`. -/
def non_negative_amounts (v : ℚ) : Except String ℚ :=
  if v < 0 then .error "Amounts cannot be negative" else .ok v

/-- Construction of an `Invoice`: pydantic runs `non_negative_amounts` on
`net_total`, `tax_amount` and `gross_total`; any failure aborts
construction. All other fields are accepted as typed. -/
def Invoice.construct (inv : Invoice) : Except String Invoice := do
  let _ ← non_negative_amounts inv.net_total
  let _ ← non_negative_amounts inv.tax_amount
  let _ ← non_negative_amounts inv.gross_total
  return inv

/-- models.py `ValidationError`. -/
structure ValidationError where
  rule : String
  message : String
  severity : String := "error"
deriving DecidableEq, Repr

/-- models.py `ValidationResult`. -/
structure ValidationResult where
  invoice_id : String
  is_valid : Bool
  errors : List ValidationError
  warnings : List ValidationError
deriving DecidableEq, Repr

/-- models.py `ValidationSummary`. `error_counts` keeps the dict built by
the batch run as an association list in insertion order (Python dicts
preserve insertion order; keys are unique). -/
structure ValidationSummary where
  total_invoices : Nat
  valid_invoices : Nat
  invalid_invoices : Nat
  error_counts : List (String × Nat)
  validation_timestamp : Int
deriving DecidableEq, Repr

/-- The duplicate-tracking key used by validator.py `_check_duplicates`:
`(invoice_number, seller_name, str(invoice_date))`. -/
abbrev DupKey := String × String × String

/-- validator.py `_check_duplicates` key computation. -/
def dupKey (inv : Invoice) : DupKey :=
  (inv.invoice_number, inv.seller_name, toString inv.invoice_date)

/-- Python's blank test on a required string field:
`isinstance(value, str) and not value.strip()`. -/
def isBlank (s : String) : Bool := s.trim.isEmpty

/-- One step of `_check_required_fields` for a string-valued field. -/
def check_str_field (name : String) (value : String) : List ValidationError :=
  if isBlank value then
    [{ rule := "required_field_empty",
       message := "Required field is empty: " ++ name,
       severity := "error" }]
  else []

/-- validator.py `_check_required_fields`, iterating `REQUIRED_FIELDS` in
order: `invoice_number, invoice_date, seller_name, buyer_name, currency,
net_total, tax_amount, gross_total`. On a constructed `Invoice` no field
is `None` (so `required_field_missing` is unreachable) and the only
string-valued fields are `invoice_number`, `seller_name`, `buyer_name`
and the `str`-subclass `currency`; `invoice_date` is a `date` and the
totals are floats, so they skip both branches. -/
def check_required_fields (inv : Invoice) : List ValidationError :=
  check_str_field "invoice_number" inv.invoice_number
    ++ check_str_field "seller_name" inv.seller_name
    ++ check_str_field "buyer_name" inv.buyer_name
    ++ check_str_field "currency" inv.currency.value

/-- validator.py `_check_dates`. A constructed `Invoice` always has a
`date`-typed `invoice_date` (truthy, `isinstance` passes), so only the
range check can fire; a present `due_date` is always a `date`, so the
`invalid_date_format` branch for it is unreachable. -/
def check_dates (today : Int) (inv : Invoice) : List ValidationError :=
  if (today - inv.invoice_date).natAbs > 3650 then
    [{ rule := "date_out_of_range",
       message := "invoice_date looks unrealistic: " ++ toString inv.invoice_date,
       severity := "error" }]
  else []

/-- validator.py `_check_currency`: membership of the currency value in
the list of `Currency` enum values. -/
def check_currency (inv : Invoice) : List ValidationError :=
  let allowed : List String := ["EUR", "USD", "GBP", "INR"]
  if inv.currency.value ∈ allowed then []
  else
    [{ rule := "invalid_currency",
       message := "Currency " ++ inv.currency.value ++ " is not allowed",
       severity := "error" }]

/-- validator.py `_check_line_items_sum`: with non-empty line items, the
sum of `line_total` must satisfy `|sum - net_total| <= net_total * 0.01`;
strictly greater difference produces `line_items_sum_mismatch`. -/
def check_line_items_sum (inv : Invoice) : List ValidationError :=
  if inv.line_items = [] then []
  else
    let computed_sum := (inv.line_items.map (fun item => item.line_total)).sum
    let tolerance := inv.net_total * (1 / 100)
    let diff := |computed_sum - inv.net_total|
    if diff > tolerance then
      [{ rule := "line_items_sum_mismatch",
         message := "Line items total " ++ toString computed_sum
           ++ " does not match net_total " ++ toString inv.net_total,
         severity := "error" }]
    else []

/-- validator.py `_check_gross_calculation`:
`|net_total + tax_amount - gross_total| > gross_total * 0.005` produces
`gross_calculation_mismatch`. -/
def check_gross_calculation (inv : Invoice) : List ValidationError :=
  let expected_gross := inv.net_total + inv.tax_amount
  let tolerance := inv.gross_total * (5 / 1000)
  let diff := |expected_gross - inv.gross_total|
  if diff > tolerance then
    [{ rule := "gross_calculation_mismatch",
       message := "net_total + tax_amount = " ++ toString expected_gross
         ++ " but gross_total is " ++ toString inv.gross_total,
       severity := "error" }]
  else []

/-- validator.py `_check_due_date`: both dates present and
`due_date < invoice_date`. -/
def check_due_date (inv : Invoice) : List ValidationError :=
  match inv.due_date with
  | none => []
  | some d =>
      if d < inv.invoice_date then
        [{ rule := "due_date_before_invoice_date",
           message := "due_date " ++ toString d ++ " is before invoice_date "
             ++ toString inv.invoice_date,
           severity := "error" }]
      else []

/-- validator.py `_check_duplicates`: membership test in `seen_invoices`,
inserting the key when absent. Returns the errors and the updated state. -/
def check_duplicates (seen : List DupKey) (inv : Invoice) :
    List ValidationError × List DupKey :=
  let key := dupKey inv
  if key ∈ seen then
    ([{ rule := "duplicate_invoice",
        message := "Duplicate invoice detected: " ++ inv.invoice_number
          ++ " from " ++ inv.seller_name,
        severity := "error" }], seen)
  else ([], key :: seen)

/-- One line item's contribution to `_check_non_negative`. -/
def check_item_non_negative (item : LineItem) : List ValidationError :=
  (if item.quantity < 0 then
    [{ rule := "negative_quantity",
       message := "Line item has negative quantity: " ++ toString item.quantity,
       severity := "error" }]
   else [])
  ++
  (if item.unit_price < 0 then
    [{ rule := "negative_unit_price",
       message := "Line item has negative unit_price: " ++ toString item.unit_price,
       severity := "error" }]
   else [])

/-- validator.py `_check_non_negative`: the three totals in dict insertion
order (`net_total`, `tax_amount`, `gross_total`), then each line item's
quantity and unit price. -/
def check_non_negative (inv : Invoice) : List ValidationError :=
  (if inv.net_total < 0 then
    [{ rule := "negative_amount",
       message := "net_total cannot be negative", severity := "error" }]
   else [])
  ++
  (if inv.tax_amount < 0 then
    [{ rule := "negative_amount",
       message := "tax_amount cannot be negative", severity := "error" }]
   else [])
  ++
  (if inv.gross_total < 0 then
    [{ rule := "negative_amount",
       message := "gross_total cannot be negative", severity := "error" }]
   else [])
  ++ (inv.line_items.map check_item_non_negative).flatten

/-- Python truthiness of an `Optional[str]`: falsy when absent or empty. -/
def falsyOptStr : Option String → Bool
  | none => true
  | some s => s.isEmpty

/-- validator.py `_check_warnings`: `no_line_items`,
`missing_seller_tax_id`, `missing_due_date`, `old_invoice` (in that
order). A present `due_date` (a `date`) is always truthy; `invoice_date`
is always a `date`, so the `old_invoice` guard reduces to the age test. -/
def check_warnings (today : Int) (inv : Invoice) : List ValidationError :=
  (if inv.line_items = [] then
    [{ rule := "no_line_items", message := "Invoice has no line items",
       severity := "warning" }]
   else [])
  ++
  (if falsyOptStr inv.seller_tax_id then
    [{ rule := "missing_seller_tax_id", message := "Seller tax ID is missing",
       severity := "warning" }]
   else [])
  ++
  (if inv.due_date = none then
    [{ rule := "missing_due_date", message := "Due date is missing",
       severity := "warning" }]
   else [])
  ++
  (if today - inv.invoice_date > 365 then
    [{ rule := "old_invoice", message := "Invoice is over 1 year old",
       severity := "warning" }]
   else [])

/-- validator.py `InvoiceValidator.validate_invoice`: concatenates the
checks in source order (required fields, dates, currency, line-items sum,
gross calculation, due date, duplicates, non-negative), computes the
warnings, and builds the `ValidationResult`. `invoice_id` is
`invoice.invoice_number or "UNKNOWN"` (the empty string is falsy).
Returns the result together with the updated duplicate-tracking state. -/
def validate_invoice (today : Int) (seen : List DupKey) (inv : Invoice) :
    ValidationResult × List DupKey :=
  let dup := check_duplicates seen inv
  let errors :=
    check_required_fields inv
      ++ check_dates today inv
      ++ check_currency inv
      ++ check_line_items_sum inv
      ++ check_gross_calculation inv
      ++ check_due_date inv
      ++ dup.1
      ++ check_non_negative inv
  let warnings := check_warnings today inv
  let invoice_id := if inv.invoice_number = "" then "UNKNOWN" else inv.invoice_number
  ({ invoice_id := invoice_id,
     is_valid := errors.isEmpty,
     errors := errors,
     warnings := warnings }, dup.2)

/-- The per-record loop of `validate_batch`: validates each invoice in
input order, threading the duplicate-tracking state. -/
def runBatch (today : Int) (seen : List DupKey) :
    List Invoice → List ValidationResult × List DupKey
  | [] => ([], seen)
  | inv :: rest =>
      let step := validate_invoice today seen inv
      let tail := runBatch today step.2 rest
      (step.1 :: tail.1, tail.2)

/-- One `error_counts[err.rule] += 1` on the defaultdict, preserving dict
insertion order: bump an existing key in place, or append a new key
with count 1. -/
def bump (counts : List (String × Nat)) (rule : String) : List (String × Nat) :=
  match counts with
  | [] => [(rule, 1)]
  | (r, n) :: rest =>
      if r = rule then (r, n + 1) :: rest else (r, n) :: bump rest rule

/-- The error-count accumulation of `validate_batch`: for each result in
order, for each of its errors in order, bump the rule's count. -/
def accumCounts (results : List ValidationResult) : List (String × Nat) :=
  results.foldl (fun c r => r.errors.foldl (fun c e => bump c e.rule) c) []

/-- validator.py `InvoiceValidator.validate_batch`: clears `seen_invoices`
(the incoming engine state `seen0` is discarded), validates every invoice
in input order, accumulates `error_counts`, counts the valid results and
builds the `ValidationSummary`. Returns `(results, summary)` and the
engine state left behind by the run. `now` models `datetime.utcnow()`. -/
def validate_batch (today now : Int) (seen0 : List DupKey)
    (invoices : List Invoice) :
    (List ValidationResult × ValidationSummary) × List DupKey :=
  let cleared : List DupKey := []
  let run := runBatch today cleared invoices
  let results := run.1
  let valid_count := (results.filter (fun r => r.is_valid)).length
  let summary : ValidationSummary :=
    { total_invoices := invoices.length,
      valid_invoices := valid_count,
      invalid_invoices := invoices.length - valid_count,
      error_counts := accumCounts results,
      validation_timestamp := now }
  ((results, summary), run.2)

/-- Number of occurrences of a rule in an error list. -/
def countRule (errs : List ValidationError) (ru : String) : Nat :=
  (errs.filter (fun e => e.rule = ru)).length

/-- Reading the batch's `error_counts` dict with a default of 0. -/
def lookupCount (counts : List (String × Nat)) (ru : String) : Nat :=
  match counts.find? (fun p => p.1 = ru) with
  | some p => p.2
  | none => 0

/-!  Concrete records used to exercise the engine at specific inputs. -/

/-- A complete, well-formed invoice (mirrors the example record of
models.py): all totals consistent, no line items. -/
def baseInvoice : Invoice :=
  { invoice_number := "INV-2024-001",
    seller_name := "Tech Solutions GmbH",
    buyer_name := "Example Corp AG",
    invoice_date := 19738,
    net_total := 100,
    tax_amount := 19,
    gross_total := 119 }

/-- Line items summing to 101.00 against `net_total = 100`: exactly on the
1% tolerance boundary. -/
def invBoundaryOk : Invoice :=
  { baseInvoice with
    line_items := [{ description := "Consulting", quantity := 1,
                     unit_price := 101, line_total := 101 }] }

/-- Line items summing to 101.01 against `net_total = 100`: just past the
1% tolerance boundary. -/
def invBoundaryBad : Invoice :=
  { baseInvoice with
    line_items := [{ description := "Consulting", quantity := 1,
                     unit_price := 101.01, line_total := 101.01 }] }

/-- `net_total = 100`, `tax_amount = 19`, `gross_total = 120`: the gross
check fails (difference 1.00 against tolerance 0.6). -/
def invGrossBad : Invoice :=
  { baseInvoice with gross_total := 120 }

/-- Zero reference totals with nonzero discrepancies: `net_total = 0` with
line items summing to 5, and `gross_total = 0` with `net + tax = 7`. -/
def invZeroTotals : Invoice :=
  { baseInvoice with
    net_total := 0, tax_amount := 7, gross_total := 0,
    line_items := [{ description := "a", quantity := 1,
                     unit_price := 5, line_total := 5 }] }

/-- Non-negative invoice totals but a line item with negative quantity and
negative unit price: passes construction, caught only by the engine. -/
def invNegativeItem : Invoice :=
  { baseInvoice with
    line_items := [{ description := "bad", quantity := -1,
                     unit_price := -2, line_total := 3 }] }

/-- An invoice whose `invoice_number` is the empty string. -/
def invEmptyNumber : Invoice :=
  { baseInvoice with invoice_number := "" }

/-!  Helper lemmas about `countRule` and the individual checks. -/

theorem countRule_nil (ru : String) : countRule [] ru = 0 := rfl

theorem countRule_append (a b : List ValidationError) (ru : String) :
    countRule (a ++ b) ru = countRule a ru + countRule b ru := by
  simp [countRule, List.filter_append]

theorem countRule_cons (e : ValidationError) (t : List ValidationError) (ru : String) :
    countRule (e :: t) ru = (if e.rule = ru then 1 else 0) + countRule t ru := by
  by_cases h : e.rule = ru
  · simp [countRule, List.filter_cons, h, Nat.add_comm]
  · simp [countRule, List.filter_cons, h]

theorem countRule_eq_zero {errs : List ValidationError} {ru : String}
    (h : ∀ e ∈ errs, e.rule ≠ ru) : countRule errs ru = 0 := by
  induction errs with
  | nil => rfl
  | cons e t ih =>
      rw [countRule_cons, if_neg (h e (by simp)), ih (fun x hx => h x (by simp [hx]))]

theorem rule_of_mem_check_str_field {name value : String} {e : ValidationError}
    (h : e ∈ check_str_field name value) : e.rule = "required_field_empty" := by
  unfold check_str_field at h
  split_ifs at h <;> simp_all

theorem rule_of_mem_check_required_fields {inv : Invoice} {e : ValidationError}
    (h : e ∈ check_required_fields inv) : e.rule = "required_field_empty" := by
  unfold check_required_fields at h
  simp only [List.mem_append] at h
  rcases h with ((h | h) | h) | h <;> exact rule_of_mem_check_str_field h

theorem rule_of_mem_check_dates {today : Int} {inv : Invoice} {e : ValidationError}
    (h : e ∈ check_dates today inv) : e.rule = "date_out_of_range" := by
  unfold check_dates at h
  split_ifs at h <;> simp_all

theorem check_currency_eq_nil (inv : Invoice) : check_currency inv = [] := by
  unfold check_currency
  cases inv.currency <;> simp [Currency.value]

theorem rule_of_mem_check_line_items_sum {inv : Invoice} {e : ValidationError}
    (h : e ∈ check_line_items_sum inv) : e.rule = "line_items_sum_mismatch" := by
  unfold check_line_items_sum at h
  split_ifs at h <;> simp_all

theorem rule_of_mem_check_gross_calculation {inv : Invoice} {e : ValidationError}
    (h : e ∈ check_gross_calculation inv) : e.rule = "gross_calculation_mismatch" := by
  simp only [check_gross_calculation] at h
  split_ifs at h <;> simp_all

theorem rule_of_mem_check_due_date {inv : Invoice} {e : ValidationError}
    (h : e ∈ check_due_date inv) : e.rule = "due_date_before_invoice_date" := by
  unfold check_due_date at h
  split at h
  · simp at h
  · split_ifs at h <;> simp_all

theorem rule_of_mem_check_duplicates {seen : List DupKey} {inv : Invoice}
    {e : ValidationError} (h : e ∈ (check_duplicates seen inv).1) :
    e.rule = "duplicate_invoice" := by
  simp only [check_duplicates] at h
  split_ifs at h <;> simp_all

theorem rule_of_mem_check_item_non_negative {item : LineItem} {e : ValidationError}
    (h : e ∈ check_item_non_negative item) :
    e.rule = "negative_quantity" ∨ e.rule = "negative_unit_price" := by
  unfold check_item_non_negative at h
  simp only [List.mem_append] at h
  rcases h with h | h <;> split_ifs at h <;> simp_all

theorem rule_of_mem_check_non_negative {inv : Invoice} {e : ValidationError}
    (h : e ∈ check_non_negative inv) :
    e.rule = "negative_amount" ∨ e.rule = "negative_quantity"
      ∨ e.rule = "negative_unit_price" := by
  unfold check_non_negative at h
  simp only [List.mem_append] at h
  rcases h with ((h | h) | h) | h
  · left; split_ifs at h <;> simp_all
  · left; split_ifs at h <;> simp_all
  · left; split_ifs at h <;> simp_all
  · simp only [List.mem_flatten, List.mem_map] at h
    obtain ⟨l, ⟨item, _, rfl⟩, hmem⟩ := h
    exact Or.inr (rule_of_mem_check_item_non_negative hmem)

/-!  Projections of `validate_invoice`. -/

set_option maxHeartbeats 1000000 in
theorem validate_errors_eq (today : Int) (seen : List DupKey) (inv : Invoice) :
    (validate_invoice today seen inv).1.errors =
      check_required_fields inv ++ check_dates today inv ++ check_currency inv
        ++ check_line_items_sum inv ++ check_gross_calculation inv
        ++ check_due_date inv ++ (check_duplicates seen inv).1
        ++ check_non_negative inv := rfl

set_option maxHeartbeats 1000000 in
theorem validate_is_valid_eq (today : Int) (seen : List DupKey) (inv : Invoice) :
    (validate_invoice today seen inv).1.is_valid =
      ((validate_invoice today seen inv).1.errors).isEmpty := rfl

theorem validate_snd_eq (today : Int) (seen : List DupKey) (inv : Invoice) :
    (validate_invoice today seen inv).2 =
      if dupKey inv ∈ seen then seen else dupKey inv :: seen := by
  show (check_duplicates seen inv).2 = _
  simp only [check_duplicates]
  split_ifs <;> rfl

theorem countRule_check_duplicates (seen : List DupKey) (inv : Invoice) :
    countRule (check_duplicates seen inv).1 "duplicate_invoice" =
      if dupKey inv ∈ seen then 1 else 0 := by
  simp only [check_duplicates]
  split_ifs <;> rfl

theorem countRule_check_line_items_sum (inv : Invoice) :
    countRule (check_line_items_sum inv) "line_items_sum_mismatch" =
      if inv.line_items ≠ [] ∧
          |(inv.line_items.map (fun item => item.line_total)).sum - inv.net_total|
            > inv.net_total * (1 / 100) then 1 else 0 := by
  simp only [check_line_items_sum]
  by_cases h1 : inv.line_items = []
  · simp [h1, countRule]
  · rw [if_neg h1]
    by_cases h2 : |(inv.line_items.map (fun item => item.line_total)).sum - inv.net_total|
        > inv.net_total * (1 / 100)
    · rw [if_pos h2, if_pos ⟨h1, h2⟩]
      simp [countRule]
    · rw [if_neg h2, if_neg (fun hc => h2 hc.2)]
      rfl

theorem countRule_check_gross_calculation (inv : Invoice) :
    countRule (check_gross_calculation inv) "gross_calculation_mismatch" =
      if |inv.net_total + inv.tax_amount - inv.gross_total|
          > inv.gross_total * (5 / 1000) then 1 else 0 := by
  simp only [check_gross_calculation]
  by_cases h : |inv.net_total + inv.tax_amount - inv.gross_total|
      > inv.gross_total * (5 / 1000)
  · rw [if_pos h, if_pos h]
    simp [countRule]
  · rw [if_neg h, if_neg h]
    rfl

theorem countRule_other {errs : List ValidationError} {ru target : String}
    (hmem : ∀ e ∈ errs, e.rule = ru) (hne : ru ≠ target) :
    countRule errs target = 0 :=
  countRule_eq_zero fun e he => (hmem e he) ▸ hne

theorem countRule_check_non_negative_ne {inv : Invoice} {target : String}
    (h1 : target ≠ "negative_amount") (h2 : target ≠ "negative_quantity")
    (h3 : target ≠ "negative_unit_price") :
    countRule (check_non_negative inv) target = 0 := by
  refine countRule_eq_zero fun e he => ?_
  rcases rule_of_mem_check_non_negative he with h | h | h <;> rw [h]
  · exact fun hc => h1 hc.symm
  · exact fun hc => h2 hc.symm
  · exact fun hc => h3 hc.symm

/-- Decomposition of the per-invoice error list into per-check counts. -/
theorem countRule_validate (today : Int) (seen : List DupKey) (inv : Invoice)
    (ru : String) :
    countRule (validate_invoice today seen inv).1.errors ru =
      countRule (check_required_fields inv) ru + countRule (check_dates today inv) ru
        + countRule (check_currency inv) ru + countRule (check_line_items_sum inv) ru
        + countRule (check_gross_calculation inv) ru + countRule (check_due_date inv) ru
        + countRule (check_duplicates seen inv).1 ru
        + countRule (check_non_negative inv) ru := by
  rw [validate_errors_eq]
  simp only [countRule_append]

theorem countRule_validate_duplicate (today : Int) (seen : List DupKey) (inv : Invoice) :
    countRule (validate_invoice today seen inv).1.errors "duplicate_invoice" =
      if dupKey inv ∈ seen then 1 else 0 := by
  rw [countRule_validate,
    countRule_other (fun e he => rule_of_mem_check_required_fields he) (by decide),
    countRule_other (fun e he => rule_of_mem_check_dates he) (by decide),
    check_currency_eq_nil, countRule_nil,
    countRule_other (fun e he => rule_of_mem_check_line_items_sum he) (by decide),
    countRule_other (fun e he => rule_of_mem_check_gross_calculation he) (by decide),
    countRule_other (fun e he => rule_of_mem_check_due_date he) (by decide),
    countRule_check_duplicates,
    countRule_check_non_negative_ne (by decide) (by decide) (by decide)]
  omega

theorem countRule_validate_line_items (today : Int) (seen : List DupKey) (inv : Invoice) :
    countRule (validate_invoice today seen inv).1.errors "line_items_sum_mismatch" =
      if inv.line_items ≠ [] ∧
          |(inv.line_items.map (fun item => item.line_total)).sum - inv.net_total|
            > inv.net_total * (1 / 100) then 1 else 0 := by
  rw [countRule_validate,
    countRule_other (fun e he => rule_of_mem_check_required_fields he) (by decide),
    countRule_other (fun e he => rule_of_mem_check_dates he) (by decide),
    check_currency_eq_nil, countRule_nil,
    countRule_check_line_items_sum,
    countRule_other (fun e he => rule_of_mem_check_gross_calculation he) (by decide),
    countRule_other (fun e he => rule_of_mem_check_due_date he) (by decide),
    countRule_other (fun e he => rule_of_mem_check_duplicates he) (by decide),
    countRule_check_non_negative_ne (by decide) (by decide) (by decide)]
  omega

theorem countRule_validate_gross (today : Int) (seen : List DupKey) (inv : Invoice) :
    countRule (validate_invoice today seen inv).1.errors "gross_calculation_mismatch" =
      if |inv.net_total + inv.tax_amount - inv.gross_total|
          > inv.gross_total * (5 / 1000) then 1 else 0 := by
  rw [countRule_validate,
    countRule_other (fun e he => rule_of_mem_check_required_fields he) (by decide),
    countRule_other (fun e he => rule_of_mem_check_dates he) (by decide),
    check_currency_eq_nil, countRule_nil,
    countRule_other (fun e he => rule_of_mem_check_line_items_sum he) (by decide),
    countRule_check_gross_calculation,
    countRule_other (fun e he => rule_of_mem_check_due_date he) (by decide),
    countRule_other (fun e he => rule_of_mem_check_duplicates he) (by decide),
    countRule_check_non_negative_ne (by decide) (by decide) (by decide)]
  omega

theorem countRule_check_non_negative_amount {inv : Invoice}
    (h1 : 0 ≤ inv.net_total) (h2 : 0 ≤ inv.tax_amount) (h3 : 0 ≤ inv.gross_total) :
    countRule (check_non_negative inv) "negative_amount" = 0 := by
  unfold check_non_negative
  rw [if_neg (not_lt.mpr h1), if_neg (not_lt.mpr h2), if_neg (not_lt.mpr h3)]
  simp only [List.nil_append]
  refine countRule_eq_zero fun e he => ?_
  simp only [List.mem_flatten, List.mem_map] at he
  obtain ⟨l, ⟨item, _, rfl⟩, hmem⟩ := he
  rcases rule_of_mem_check_item_non_negative hmem with h | h <;> rw [h] <;> decide

theorem countRule_validate_negative_amount (today : Int) (seen : List DupKey)
    (inv : Invoice) (h1 : 0 ≤ inv.net_total) (h2 : 0 ≤ inv.tax_amount)
    (h3 : 0 ≤ inv.gross_total) :
    countRule (validate_invoice today seen inv).1.errors "negative_amount" = 0 := by
  rw [countRule_validate,
    countRule_other (fun e he => rule_of_mem_check_required_fields he) (by decide),
    countRule_other (fun e he => rule_of_mem_check_dates he) (by decide),
    check_currency_eq_nil, countRule_nil,
    countRule_other (fun e he => rule_of_mem_check_line_items_sum he) (by decide),
    countRule_other (fun e he => rule_of_mem_check_gross_calculation he) (by decide),
    countRule_other (fun e he => rule_of_mem_check_due_date he) (by decide),
    countRule_other (fun e he => rule_of_mem_check_duplicates he) (by decide),
    countRule_check_non_negative_amount h1 h2 h3]

/-!  State threading of the batch loop. -/

theorem mem_validate_snd (today : Int) (seen : List DupKey) (inv : Invoice)
    (k : DupKey) :
    k ∈ (validate_invoice today seen inv).2 ↔ dupKey inv = k ∨ k ∈ seen := by
  rw [validate_snd_eq]
  split_ifs with h
  · constructor
    · exact fun hk => Or.inr hk
    · rintro (rfl | hk)
      · exact h
      · exact hk
  · simp [List.mem_cons, eq_comm]

theorem mem_runBatch_snd (today : Int) :
    ∀ (invs : List Invoice) (seen : List DupKey) (k : DupKey),
      k ∈ (runBatch today seen invs).2 ↔
        (∃ inv ∈ invs, dupKey inv = k) ∨ k ∈ seen := by
  intro invs
  induction invs with
  | nil => intro seen k; simp [runBatch]
  | cons a l ih =>
      intro seen k
      have hstep : (runBatch today seen (a :: l)).2 =
          (runBatch today (validate_invoice today seen a).2 l).2 := rfl
      rw [hstep, ih, mem_validate_snd]
      simp only [List.mem_cons]
      constructor
      · rintro (⟨inv, hinv, rfl⟩ | (rfl | hk))
        · exact Or.inl ⟨inv, Or.inr hinv, rfl⟩
        · exact Or.inl ⟨a, Or.inl rfl, rfl⟩
        · exact Or.inr hk
      · rintro (⟨inv, (rfl | hinv), rfl⟩ | hk)
        · exact Or.inr (Or.inl rfl)
        · exact Or.inl ⟨inv, hinv, rfl⟩
        · exact Or.inr (Or.inr hk)

theorem runBatch_length (today : Int) :
    ∀ (invs : List Invoice) (seen : List DupKey),
      (runBatch today seen invs).1.length = invs.length := by
  intro invs
  induction invs with
  | nil => intro seen; rfl
  | cons a l ih => intro seen; simp [runBatch, ih]

theorem runBatch_getElem (today : Int) :
    ∀ (invs : List Invoice) (seen : List DupKey) (i : Nat),
      (runBatch today seen invs).1[i]? =
        (invs[i]?).map
          (fun inv =>
            (validate_invoice today (runBatch today seen (invs.take i)).2 inv).1) := by
  intro invs
  induction invs with
  | nil => intro seen i; simp [runBatch]
  | cons a l ih =>
      intro seen i
      cases i with
      | zero => simp [runBatch]
      | succ n =>
          have hstep : (runBatch today seen (a :: l)).1 =
            (validate_invoice today seen a).1 ::
              (runBatch today (validate_invoice today seen a).2 l).1 := rfl
          have htake : (runBatch today seen ((a :: l).take (n + 1))).2 =
            (runBatch today (validate_invoice today seen a).2 (l.take n)).2 := rfl
          rw [hstep, htake, List.getElem?_cons_succ, List.getElem?_cons_succ, ih]

/-!  The `error_counts` accumulation. -/

theorem lookupCount_nil (ru : String) : lookupCount [] ru = 0 := rfl

theorem lookupCount_cons (a : String × Nat) (t : List (String × Nat)) (ru : String) :
    lookupCount (a :: t) ru = if a.1 = ru then a.2 else lookupCount t ru := by
  unfold lookupCount
  rw [List.find?_cons]
  by_cases h : a.1 = ru
  · simp [h]
  · simp [h]

theorem lookupCount_bump (c : List (String × Nat)) (ru ru' : String) :
    lookupCount (bump c ru) ru' =
      lookupCount c ru' + if ru = ru' then 1 else 0 := by
  induction c with
  | nil =>
      by_cases h : ru = ru' <;>
        simp [bump, lookupCount_cons, lookupCount_nil, h]
  | cons a t ih =>
      rcases a with ⟨r, n⟩
      by_cases h1 : r = ru
      · subst h1
        rw [show bump ((r, n) :: t) r = (r, n + 1) :: t by simp [bump]]
        by_cases h2 : r = ru' <;> simp [lookupCount_cons, h2]
      · rw [show bump ((r, n) :: t) ru = (r, n) :: bump t ru by simp [bump, h1]]
        by_cases h2 : r = ru'
        · have : ru ≠ ru' := fun hc => h1 (h2.trans hc.symm)
          simp [lookupCount_cons, h2, this]
        · simp [lookupCount_cons, h2, ih]

theorem lookupCount_foldl_errors (ru : String) :
    ∀ (errs : List ValidationError) (c : List (String × Nat)),
      lookupCount (errs.foldl (fun c e => bump c e.rule) c) ru =
        lookupCount c ru + countRule errs ru := by
  intro errs
  induction errs with
  | nil => intro c; simp [countRule]
  | cons e t ih =>
      intro c
      simp only [List.foldl_cons]
      rw [ih, lookupCount_bump, countRule_cons]
      by_cases h : e.rule = ru <;> simp [h] <;> omega

theorem lookupCount_foldl_results (ru : String) :
    ∀ (results : List ValidationResult) (c : List (String × Nat)),
      lookupCount
          (results.foldl (fun c r => r.errors.foldl (fun c e => bump c e.rule) c) c) ru =
        lookupCount c ru + (results.map (fun r => countRule r.errors ru)).sum := by
  intro results
  induction results with
  | nil => intro c; simp
  | cons r t ih =>
      intro c
      simp only [List.foldl_cons, List.map_cons, List.sum_cons]
      rw [ih, lookupCount_foldl_errors]
      omega

theorem accumCounts_spec (results : List ValidationResult) (ru : String) :
    lookupCount (accumCounts results) ru =
      (results.map (fun r => countRule r.errors ru)).sum := by
  have h := lookupCount_foldl_results ru results []
  simpa [accumCounts, lookupCount_nil] using h

/-!  Projections of `validate_batch`. -/

theorem validate_batch_results_eq (today now : Int) (seen0 : List DupKey)
    (invs : List Invoice) :
    ((validate_batch today now seen0 invs).1).1 = (runBatch today [] invs).1 := rfl

theorem validate_batch_summary_eq (today now : Int) (seen0 : List DupKey)
    (invs : List Invoice) :
    ((validate_batch today now seen0 invs).1).2 =
      { total_invoices := invs.length,
        valid_invoices :=
          ((runBatch today [] invs).1.filter (fun r => r.is_valid)).length,
        invalid_invoices := invs.length -
          ((runBatch today [] invs).1.filter (fun r => r.is_valid)).length,
        error_counts := accumCounts (runBatch today [] invs).1,
        validation_timestamp := now } := rfl

theorem validate_batch_snd_eq (today now : Int) (seen0 : List DupKey)
    (invs : List Invoice) :
    (validate_batch today now seen0 invs).2 = (runBatch today [] invs).2 := rfl

/-!  Misc helpers for the claim theorems. -/

theorem getElem_mem_take {l : List Invoice} {i j : Nat} (hj : j < i)
    (h : j < l.length) : l[j] ∈ l.take i := by
  have hlen : j < (l.take i).length := by
    simp only [List.length_take]
    omega
  have he : (l.take i)[j] = l[j] := List.getElem_take l
  exact he ▸ List.getElem_mem hlen

theorem exists_getElem_of_mem_take {l : List Invoice} {i : Nat} {x : Invoice}
    (hx : x ∈ l.take i) : ∃ j, j < i ∧ ∃ hl : j < l.length, l[j] = x := by
  rw [List.mem_iff_getElem] at hx
  obtain ⟨n, hn, he⟩ := hx
  have hlen := hn
  simp only [List.length_take, lt_inf_iff] at hlen
  refine ⟨n, hlen.1, hlen.2, ?_⟩
  rw [← he]
  exact (List.getElem_take l).symm

theorem countRule_pos_of_mem {errs : List ValidationError} {e : ValidationError}
    {ru : String} (he : e ∈ errs) (hr : e.rule = ru) : 0 < countRule errs ru := by
  unfold countRule
  exact List.length_pos.mpr
    (List.ne_nil_of_mem (List.mem_filter.mpr ⟨he, by simp [hr]⟩))

/-- Pydantic construction of an `Invoice` succeeds exactly when the three
totals are non-negative. -/
theorem construct_ok_iff (inv : Invoice) :
    Invoice.construct inv = Except.ok inv ↔
      0 ≤ inv.net_total ∧ 0 ≤ inv.tax_amount ∧ 0 ≤ inv.gross_total := by
  unfold Invoice.construct non_negative_amounts
  by_cases h1 : inv.net_total < 0
  · rw [if_pos h1]
    simp only [bind, Except.bind]
    exact iff_of_false (fun hc => Except.noConfusion hc)
      (fun hc => absurd hc.1 (not_le.mpr h1))
  · rw [if_neg h1]
    simp only [bind, Except.bind]
    by_cases h2 : inv.tax_amount < 0
    · rw [if_pos h2]
      exact iff_of_false (fun hc => Except.noConfusion hc)
        (fun hc => absurd hc.2.1 (not_le.mpr h2))
    · rw [if_neg h2]
      by_cases h3 : inv.gross_total < 0
      · rw [if_pos h3]
        exact iff_of_false (fun hc => Except.noConfusion hc)
          (fun hc => absurd hc.2.2 (not_le.mpr h3))
      · rw [if_neg h3]
        exact iff_of_true rfl ⟨not_lt.mp h1, not_lt.mp h2, not_lt.mp h3⟩

set_option maxHeartbeats 1000000 in
theorem validate_invoice_id_eq (today : Int) (seen : List DupKey) (inv : Invoice) :
    (validate_invoice today seen inv).1.invoice_id =
      if inv.invoice_number = "" then "UNKNOWN" else inv.invoice_number := rfl

theorem countRule_cons_of_eq {e : ValidationError} {ru : String}
    (t : List ValidationError) (h : e.rule = ru) :
    countRule (e :: t) ru = countRule t ru + 1 := by
  rw [countRule_cons, if_pos h]
  omega

theorem countRule_cons_of_ne {e : ValidationError} {ru : String}
    (t : List ValidationError) (h : ¬e.rule = ru) :
    countRule (e :: t) ru = countRule t ru := by
  rw [countRule_cons, if_neg h]
  omega

theorem countRule_check_item_quantity (item : LineItem) :
    countRule (check_item_non_negative item) "negative_quantity" =
      if item.quantity < 0 then 1 else 0 := by
  simp only [check_item_non_negative]
  split_ifs with h1 h2
  · rw [countRule_append,
      countRule_cons_of_eq _
        (rfl : ("negative_quantity" : String) = "negative_quantity"),
      countRule_cons_of_ne _
        (by decide : ¬("negative_unit_price" : String) = "negative_quantity"),
      countRule_nil]
  · rw [countRule_append,
      countRule_cons_of_eq _
        (rfl : ("negative_quantity" : String) = "negative_quantity"),
      countRule_nil]
  · rw [countRule_append,
      countRule_cons_of_ne _
        (by decide : ¬("negative_unit_price" : String) = "negative_quantity"),
      countRule_nil]
  · rfl

theorem countRule_check_item_price (item : LineItem) :
    countRule (check_item_non_negative item) "negative_unit_price" =
      if item.unit_price < 0 then 1 else 0 := by
  simp only [check_item_non_negative]
  split_ifs with h1 h2
  · rw [countRule_append,
      countRule_cons_of_ne _
        (by decide : ¬("negative_quantity" : String) = "negative_unit_price"),
      countRule_cons_of_eq _
        (rfl : ("negative_unit_price" : String) = "negative_unit_price"),
      countRule_nil]
  · rw [countRule_append,
      countRule_cons_of_ne _
        (by decide : ¬("negative_quantity" : String) = "negative_unit_price"),
      countRule_nil]
  · rw [countRule_append,
      countRule_cons_of_eq _
        (rfl : ("negative_unit_price" : String) = "negative_unit_price"),
      countRule_nil]
  · rfl

theorem countRule_nn_invNegativeItem_quantity :
    countRule (check_non_negative invNegativeItem) "negative_quantity" = 1 := by
  norm_num [check_non_negative, invNegativeItem, baseInvoice]
  rw [countRule_check_item_quantity]
  norm_num

theorem countRule_nn_invNegativeItem_price :
    countRule (check_non_negative invNegativeItem) "negative_unit_price" = 1 := by
  norm_num [check_non_negative, invNegativeItem, baseInvoice]
  rw [countRule_check_item_price]
  norm_num

/-!  The claims. -/

/-- C1: for every invoice, the `ValidationResult` returned by
`validate_invoice` has `is_valid = true` iff its `errors` list is empty;
`is_valid` is computed from `errors` alone, so the warnings list never
changes it. -/
theorem claim_C1_is_valid_iff_errors_empty (today : Int) (seen : List DupKey)
    (inv : Invoice) :
    (validate_invoice today seen inv).1.is_valid = true ↔
      (validate_invoice today seen inv).1.errors = [] := by
  rw [validate_is_valid_eq, List.isEmpty_iff]

/-- C2: within a single `validate_batch` run (the seen-keys state is
cleared first), the record at position `i` receives no `duplicate_invoice`
error when no earlier position shares its identity key, and exactly one
such error when some earlier position shares it. -/
theorem claim_C2_duplicate_flagging (today now : Int) (seen0 : List DupKey)
    (invs : List Invoice) (i : Nat) (h : i < invs.length) :
    ∃ r, ((validate_batch today now seen0 invs).1).1[i]? = some r ∧
      ((∀ j, ∀ hj : j < i, dupKey invs[j] ≠ dupKey invs[i]) →
        countRule r.errors "duplicate_invoice" = 0) ∧
      (∀ j, ∀ hj : j < i, dupKey invs[j] = dupKey invs[i] →
        countRule r.errors "duplicate_invoice" = 1) := by
  rw [validate_batch_results_eq, runBatch_getElem, List.getElem?_eq_getElem h]
  refine ⟨_, rfl, ?_, ?_⟩
  · intro hall
    rw [countRule_validate_duplicate, if_neg]
    intro hmem
    rw [mem_runBatch_snd] at hmem
    rcases hmem with ⟨inv, hin, heq⟩ | h0
    · obtain ⟨j, hj, hl, rfl⟩ := exists_getElem_of_mem_take hin
      exact hall j hj heq
    · exact (List.not_mem_nil _) h0
  · intro j hj hkey
    rw [countRule_validate_duplicate, if_pos]
    rw [mem_runBatch_snd]
    exact Or.inl ⟨invs[j], getElem_mem_take hj (hj.trans h), hkey⟩

/-- C2 witness: in a batch of two identical invoices, the second record
gets exactly one `duplicate_invoice` error and the first-position
conditions are available as stated. -/
theorem claim_C2_duplicate_flagging_witness :
    ∃ r, ((validate_batch 0 0 [] [baseInvoice, baseInvoice]).1).1[1]? = some r ∧
      countRule r.errors "duplicate_invoice" = 1 := by
  obtain ⟨r, hr, hzero, hone⟩ :=
    claim_C2_duplicate_flagging 0 0 [] [baseInvoice, baseInvoice] 1 (by decide)
  exact ⟨r, hr, hone 0 (by decide) rfl⟩

/-- C3: `validate_batch` returns one result per record in input order (the
`i`-th result is the validation of the `i`-th invoice under the threaded
duplicate state), and the summary's `error_counts` maps every rule to the
total occurrence count over all errors of all records, `valid_invoices`
counts the valid results, `invalid_invoices` is the difference, and
`total_invoices` is the input length. -/
theorem claim_C3_batch_results_and_summary (today now : Int) (seen0 : List DupKey)
    (invs : List Invoice) :
    ((validate_batch today now seen0 invs).1).1.length = invs.length ∧
    (∀ i : Nat, ((validate_batch today now seen0 invs).1).1[i]? =
      (invs[i]?).map (fun inv =>
        (validate_invoice today (runBatch today [] (invs.take i)).2 inv).1)) ∧
    (∀ ru : String,
      lookupCount (((validate_batch today now seen0 invs).1).2).error_counts ru =
        ((((validate_batch today now seen0 invs).1).1).map
          (fun r => countRule r.errors ru)).sum) ∧
    (((validate_batch today now seen0 invs).1).2).valid_invoices =
      ((((validate_batch today now seen0 invs).1).1).filter
        (fun r => r.is_valid)).length ∧
    (((validate_batch today now seen0 invs).1).2).invalid_invoices =
      (((validate_batch today now seen0 invs).1).2).total_invoices -
        (((validate_batch today now seen0 invs).1).2).valid_invoices ∧
    (((validate_batch today now seen0 invs).1).2).total_invoices = invs.length := by
  refine ⟨?_, ?_, ?_, rfl, rfl, rfl⟩
  · rw [validate_batch_results_eq, runBatch_length]
  · intro i
    rw [validate_batch_results_eq, runBatch_getElem]
  · intro ru
    rw [validate_batch_results_eq, validate_batch_summary_eq]
    exact accumCounts_spec _ ru

/-- C4: a `line_items_sum_mismatch` error is produced exactly once iff
`line_items` is non-empty and `|sum of line_total - net_total|` strictly
exceeds `net_total * 0.01`; at `net_total = 100` a sum of 101.00 is on the
inclusive boundary and passes, while 101.01 fails. -/
theorem claim_C4_line_items_tolerance :
    (∀ (today : Int) (seen : List DupKey) (inv : Invoice),
      countRule (validate_invoice today seen inv).1.errors "line_items_sum_mismatch" =
        if inv.line_items ≠ [] ∧
            |(inv.line_items.map (fun item => item.line_total)).sum - inv.net_total|
              > inv.net_total * (1 / 100) then 1 else 0)
    ∧ countRule (validate_invoice 0 [] invBoundaryOk).1.errors
        "line_items_sum_mismatch" = 0
    ∧ countRule (validate_invoice 0 [] invBoundaryBad).1.errors
        "line_items_sum_mismatch" = 1 := by
  refine ⟨countRule_validate_line_items, ?_, ?_⟩
  · rw [countRule_validate_line_items 0 [] invBoundaryOk, if_neg]
    rintro ⟨-, habs⟩
    norm_num [invBoundaryOk, baseInvoice] at habs
  · rw [countRule_validate_line_items 0 [] invBoundaryBad, if_pos]
    constructor
    · simp [invBoundaryBad]
    · norm_num [invBoundaryBad, baseInvoice]
      rw [abs_of_pos (by norm_num : (0 : ℚ) < 101 / 100)]
      norm_num

/-- C5: a `gross_calculation_mismatch` error is produced exactly once iff
`|net_total + tax_amount - gross_total|` strictly exceeds
`gross_total * 0.005`; `(100, 19, 119)` passes and `(100, 19, 120)` fails
(difference 1.00 against tolerance 0.6). -/
theorem claim_C5_gross_tolerance :
    (∀ (today : Int) (seen : List DupKey) (inv : Invoice),
      countRule (validate_invoice today seen inv).1.errors "gross_calculation_mismatch" =
        if |inv.net_total + inv.tax_amount - inv.gross_total|
            > inv.gross_total * (5 / 1000) then 1 else 0)
    ∧ countRule (validate_invoice 0 [] baseInvoice).1.errors
        "gross_calculation_mismatch" = 0
    ∧ countRule (validate_invoice 0 [] invGrossBad).1.errors
        "gross_calculation_mismatch" = 1 := by
  refine ⟨countRule_validate_gross, ?_, ?_⟩
  · rw [countRule_validate_gross 0 [] baseInvoice, if_neg]
    intro habs
    norm_num [baseInvoice] at habs
  · rw [countRule_validate_gross 0 [] invGrossBad, if_pos]
    norm_num [invGrossBad, baseInvoice]

/-- C6: a zero reference total makes the tolerance zero, so any nonzero
discrepancy fails: with `net_total = 0` and non-empty line items of
nonzero sum, `line_items_sum_mismatch` fires, and with `gross_total = 0`
and `net_total + tax_amount` nonzero, `gross_calculation_mismatch`
fires. -/
theorem claim_C6_zero_reference_totals (today : Int) (seen : List DupKey)
    (inv : Invoice) :
    (inv.net_total = 0 → inv.line_items ≠ [] →
      (inv.line_items.map (fun item => item.line_total)).sum ≠ 0 →
      countRule (validate_invoice today seen inv).1.errors
        "line_items_sum_mismatch" = 1)
    ∧ (inv.gross_total = 0 → inv.net_total + inv.tax_amount ≠ 0 →
      countRule (validate_invoice today seen inv).1.errors
        "gross_calculation_mismatch" = 1) := by
  constructor
  · intro h0 hne hsum
    rw [countRule_validate_line_items, if_pos]
    refine ⟨hne, ?_⟩
    rw [h0]
    simpa using hsum
  · intro h0 hne
    rw [countRule_validate_gross, if_pos]
    rw [h0]
    simpa using hne

/-- C6 witness: at `invZeroTotals` (zero net and gross totals, line items
summing to 5, `net + tax = 7`) both checks fire. -/
theorem claim_C6_zero_reference_totals_witness :
    countRule (validate_invoice 0 [] invZeroTotals).1.errors
      "line_items_sum_mismatch" = 1 ∧
    countRule (validate_invoice 0 [] invZeroTotals).1.errors
      "gross_calculation_mismatch" = 1 :=
  ⟨(claim_C6_zero_reference_totals 0 [] invZeroTotals).1 rfl
      (by simp [invZeroTotals]) (by norm_num [invZeroTotals]),
    (claim_C6_zero_reference_totals 0 [] invZeroTotals).2 rfl
      (by norm_num [invZeroTotals, baseInvoice])⟩

/-- C7: `validate_batch` clears the duplicate-tracking state on entry, so
running it a second time on the same list (with whatever state the first
run left behind, or any other state) yields identical results and an
identical summary, for the same clock readings. -/
theorem claim_C7_batch_idempotent (today now : Int) (seen0 : List DupKey)
    (invs : List Invoice) :
    (validate_batch today now (validate_batch today now seen0 invs).2 invs).1 =
      (validate_batch today now seen0 invs).1 := rfl

/-- C8: constructing an `Invoice` fails iff one of `net_total`,
`tax_amount`, `gross_total` is negative: construction succeeds exactly
when all three are non-negative. -/
theorem claim_C8_construction_non_negative (inv : Invoice) :
    Invoice.construct inv = Except.ok inv ↔
      0 ≤ inv.net_total ∧ 0 ≤ inv.tax_amount ∧ 0 ≤ inv.gross_total :=
  construct_ok_iff inv

/-- C9: an invoice that passed construction (all three totals
non-negative) can never receive a `negative_amount` error from
`validate_invoice`; line-item negativity is not checked at construction,
so `negative_quantity` and `negative_unit_price` can still fire on a
successfully constructed invoice. -/
theorem claim_C9_negative_amount_unreachable :
    (∀ (today : Int) (seen : List DupKey) (inv : Invoice),
      Invoice.construct inv = Except.ok inv →
      countRule (validate_invoice today seen inv).1.errors "negative_amount" = 0)
    ∧ (∃ inv : Invoice, Invoice.construct inv = Except.ok inv ∧
        0 < countRule (validate_invoice 0 [] inv).1.errors "negative_quantity" ∧
        0 < countRule (validate_invoice 0 [] inv).1.errors "negative_unit_price") := by
  constructor
  · intro today seen inv hc
    have h := (construct_ok_iff inv).mp hc
    exact countRule_validate_negative_amount today seen inv h.1 h.2.1 h.2.2
  · refine ⟨invNegativeItem,
      (construct_ok_iff invNegativeItem).mpr
        (by norm_num [invNegativeItem, baseInvoice]), ?_, ?_⟩
    · rw [countRule_validate, countRule_nn_invNegativeItem_quantity]
      omega
    · rw [countRule_validate, countRule_nn_invNegativeItem_price]
      omega

/-- C9 witness: at `baseInvoice` (which constructs successfully) the
`negative_amount` count is zero. -/
theorem claim_C9_negative_amount_unreachable_witness :
    countRule (validate_invoice 0 [] baseInvoice).1.errors "negative_amount" = 0 :=
  claim_C9_negative_amount_unreachable.1 0 [] baseInvoice
    ((construct_ok_iff baseInvoice).mpr (by norm_num [baseInvoice]))

/-- C10: the result's `invoice_id` is the literal string `"UNKNOWN"` when
`invoice_number` is the empty string, and equals `invoice_number`
otherwise. -/
theorem claim_C10_invoice_id (today : Int) (seen : List DupKey) (inv : Invoice) :
    (inv.invoice_number = "" →
      (validate_invoice today seen inv).1.invoice_id = "UNKNOWN")
    ∧ (inv.invoice_number ≠ "" →
      (validate_invoice today seen inv).1.invoice_id = inv.invoice_number) := by
  constructor
  · intro h
    rw [validate_invoice_id_eq, if_pos h]
  · intro h
    rw [validate_invoice_id_eq, if_neg h]

/-- C10 witness: an empty `invoice_number` yields `"UNKNOWN"`, and a
populated one is passed through. -/
theorem claim_C10_invoice_id_witness :
    (validate_invoice 0 [] invEmptyNumber).1.invoice_id = "UNKNOWN" ∧
    (validate_invoice 0 [] baseInvoice).1.invoice_id = "INV-2024-001" :=
  ⟨(claim_C10_invoice_id 0 [] invEmptyNumber).1 rfl,
    (claim_C10_invoice_id 0 [] baseInvoice).2 (by decide)⟩

end InvoiceQC
